import Mathlib

/-!
Verification of the AmoCRM phone-enrichment core (src/main.py).

Shallow embedding of the update-throttling and deduplication core of the
repository: the numverify validation cache (`send_to_numverify`), the CRM
write wrapper (`update_contact`) and the per-contact decision procedure
(`process_contact`).

Modelling conventions:
* `time.time()` is modelled as a natural number of seconds.  All temporal
  checks in the source have the shape `now - t < bound` with `bound > 0`;
  truncated `Nat` subtraction agrees with Python float subtraction on the
  outcome of such comparisons (a negative Python difference and a truncated
  zero both satisfy `< bound`).
* Python dicts used as caches (`cached_phones`, `last_updates`) are modelled
  as association lists with replace-on-insert semantics.
* The numverify JSON payload is modelled by the three fields the program
  reads: `valid` (read via `data.get("valid", False)`), `country_name` and
  `location` (both read via `.get` with a default, hence `Option String`).
* External collaborators (the numverify HTTP call, the CRM PATCH) are passed
  in as explicit response values; a Boolean in each result records whether
  the external request was performed.
* Python truthiness of environment strings (`not key`) is `none` or the
  empty string; truthiness of a contact id is a nonzero number.
-/

namespace TimeZoneForAmo

/-- The fields of a numverify response dict that the program reads.
`country_name`/`location` are `none` when the key is absent from the dict. -/
structure PhoneData where
  valid : Bool
  country_name : Option String
  location : Option String
deriving DecidableEq, Repr

/-- The empty dict `{}` returned by `send_to_numverify` for an invalid
number: every `.get` on it yields the default. -/
def emptyData : PhoneData := ⟨false, none, none⟩

/-- Outcome of the `requests.get` call to numverify: a parsed JSON body when
`response.ok`, an HTTP failure status otherwise, or a raised connection
exception (`requests.get` is not wrapped in try/except in the source). -/
inductive ApiResponse where
  | ok : PhoneData → ApiResponse
  | httpFailure : String → ApiResponse
  | unreachable : String → ApiResponse
deriving DecidableEq, Repr

/-- Outcome of the `requests.patch` call to AmoCRM in `update_contact`. -/
inductive CrmResult where
  | ok : CrmResult
  | httpFailure : String → CrmResult
  | exc : String → CrmResult
deriving DecidableEq, Repr

/-- The environment variables the core reads via `os.getenv`:
`none` models an unset variable. -/
structure Env where
  numverify_key : Option String
  amo_domain : Option String
  access_token : Option String
deriving DecidableEq, Repr

/-- Python truthiness of an `os.getenv` result: `None` and `""` are falsy. -/
def truthy : Option String → Bool
  | none => false
  | some s => !s.isEmpty

/-- Python `str.strip()`: drop leading and trailing whitespace. -/
def pyStrip (s : String) : String :=
  String.mk (((s.toList.dropWhile Char.isWhitespace).reverse.dropWhile
    Char.isWhitespace).reverse)

/-- Lines 30-34 of `send_to_numverify`: `re.sub(r'\D', '', phone)` keeps the
digits; if exactly 11 digits remain and the first is `7`, it is dropped. -/
def normalizePhone (phone : String) : String :=
  let digits := phone.toList.filter Char.isDigit
  if digits.length = 11 ∧ digits.headD ' ' = '7' then
    String.mk digits.tail
  else
    String.mk digits

/-- The `cached_phones` dict: normalized number → (data, timestamp). -/
abbrev PhoneCache := List (String × PhoneData × Nat)

/-- Dict lookup (`number_to_send in cached_phones` + indexing). -/
def findPhone : PhoneCache → String → Option (PhoneData × Nat)
  | [], _ => none
  | (k, v) :: rest, key => if k = key then some v else findPhone rest key

/-- Dict assignment `cached_phones[number_to_send] = (data, now)`. -/
def insertPhone : PhoneCache → String → PhoneData × Nat → PhoneCache
  | [], key, v => [(key, v)]
  | (k, w) :: rest, key, v =>
    if k = key then (key, v) :: rest else (k, w) :: insertPhone rest key v

/-- Lines 38-41: the cache entry for `key`, provided it exists and
`now - timestamp < 3600`. -/
def cacheHit (cache : PhoneCache) (key : String) (now : Nat) :
    Option PhoneData :=
  match findPhone cache key with
  | some (data, ts) => if now - ts < 3600 then some data else none
  | none => none

deriving instance DecidableEq for Except

/-- Result of one `send_to_numverify` call: the returned data or the raised
exception message, the cache after the call, and whether the external
numverify request was performed. -/
structure ResolveOut where
  result : Except String PhoneData
  cache : PhoneCache
  apiCalled : Bool
deriving DecidableEq, Repr

/-- Embeds `send_to_numverify(phone)` (lines 25-56): normalize, consult the 1-hour
cache, otherwise require the access key and query numverify (`api` is the
response the service would give).  An invalid number yields `{}` and is not
cached; a valid one is cached at `now`; a non-ok response raises. -/
def send_to_numverify (env : Env) (api : ApiResponse) (now : Nat)
    (cache : PhoneCache) (phone : String) : ResolveOut :=
  let number_to_send := normalizePhone phone
  match cacheHit cache number_to_send now with
  | some data => ⟨Except.ok data, cache, false⟩
  | none =>
    if truthy env.numverify_key then
      match api with
      | ApiResponse.ok data =>
        if data.valid then
          ⟨Except.ok data, insertPhone cache number_to_send (data, now), true⟩
        else
          ⟨Except.ok emptyData, cache, true⟩
      | ApiResponse.httpFailure t =>
        ⟨Except.error ("Ошибка numVerify: " ++ t), cache, true⟩
      | ApiResponse.unreachable t => ⟨Except.error t, cache, true⟩
    else ⟨Except.error "NUMVERIFY_ACCESS_KEY не задан", cache, false⟩

/-- One entry of the `last_updates` dict:
`{data: (phone, country, location), last_update, last_check}`. -/
structure ContactState where
  data : String × String × String
  last_update : Nat
  last_check : Nat
deriving DecidableEq, Repr

/-- The `last_updates` dict: contact id → state. -/
abbrev LastUpdates := List (Nat × ContactState)

/-- Dict lookup `last_updates.get(contact_id, ...)`. -/
def findContact : LastUpdates → Nat → Option ContactState
  | [], _ => none
  | (k, v) :: rest, key => if k = key then some v else findContact rest key

/-- Dict assignment `last_updates[contact_id] = {...}`. -/
def insertContact : LastUpdates → Nat → ContactState → LastUpdates
  | [], key, v => [(key, v)]
  | (k, w) :: rest, key, v =>
    if k = key then (key, v) :: rest else (k, w) :: insertContact rest key v

/-- Line 151: `last_updates[contact_id]['last_check'] = now_time` — replace
only the `last_check` field of the existing entry. -/
def bumpCheck : LastUpdates → Nat → Nat → LastUpdates
  | [], _, _ => []
  | (k, c) :: rest, key, now =>
    if k = key then (k, ⟨c.data, c.last_update, now⟩) :: rest
    else (k, c) :: bumpCheck rest key now

/-- Embeds `update_contact(contact_id, country, location_value)` (lines 73-98): if
the contact id, `AMO_DOMAIN` or `ACCESS_TOKEN` is falsy it returns at once;
otherwise it performs the PATCH and prints on any HTTP failure or exception.
It never raises.  Returns (request attempted, printed error lines). -/
def update_contact (env : Env) (crm : CrmResult) (contact_id : Nat)
    (_country _location_value : String) : Bool × List String :=
  if contact_id = 0 ∨ truthy env.amo_domain = false ∨
      truthy env.access_token = false then
    (false, [])
  else
    match crm with
    | CrmResult.ok => (true, [])
    | CrmResult.httpFailure t =>
      (true, ["Ошибка Amo при обновлении контакта " ++ toString contact_id
        ++ ": " ++ t])
    | CrmResult.exc t =>
      (true, ["Ошибка Amo API при обновлении контакта " ++ toString contact_id
        ++ ": " ++ t])

/-- A contact as `process_contact` reads it: `contact.get("id")` and the
phone extracted by `get_phone_from_contact` (`none` when absent). -/
structure Contact where
  id : Option Nat
  phone : Option String
deriving DecidableEq, Repr

/-- Which path `process_contact` took (its observable decision). -/
inductive Decision where
  | skipNoId : Decision
  | skipNoPhone : Decision
  | skipSuppressed : Decision
  | skipError : String → Decision
  | write : String → String → Decision
deriving DecidableEq, Repr

/-- Result of one `process_contact` call: both global dicts afterwards,
whether the numverify and CRM requests were performed, and the decision. -/
structure ProcResult where
  last_updates : LastUpdates
  cache : PhoneCache
  apiCalled : Bool
  crmAttempted : Bool
  decision : Decision
deriving DecidableEq, Repr

/-- Line 150: a prior entry exists, its stored raw phone string equals the
observed one, and the last update is less than 600 seconds old. -/
def suppressedB (st : LastUpdates) (cid : Nat) (phone : String) (now : Nat) :
    Bool :=
  match findContact st cid with
  | some prev =>
    decide (prev.data.1 = phone) && decide (now - prev.last_update < 600)
  | none => false

/-- Line 160: `phone_info.get("country_name", "Не определено")`. -/
def deriveCountry (d : PhoneData) : String :=
  d.country_name.getD "Не определено"

/-- Line 161: `phone_info.get("location", "").strip() or "Регион не определён"`. -/
def deriveLocation (d : PhoneData) : String :=
  let t := pyStrip (d.location.getD "")
  if t = "" then "Регион не определён" else t

/-- Embeds `process_contact(contact)` (lines 132-169): skip on falsy id or phone;
skip (bumping `last_check`) when suppressed; resolve via numverify, catching
any exception as a logged skip; otherwise derive country/region, call
`update_contact` and overwrite the `last_updates` entry unconditionally. -/
def process_contact (env : Env) (api : ApiResponse) (crm : CrmResult)
    (now : Nat) (st : LastUpdates) (cache : PhoneCache) (contact : Contact) :
    ProcResult :=
  match contact.id with
  | none => ⟨st, cache, false, false, Decision.skipNoId⟩
  | some contact_id =>
    if contact_id = 0 then ⟨st, cache, false, false, Decision.skipNoId⟩
    else
      match contact.phone with
      | none => ⟨st, cache, false, false, Decision.skipNoPhone⟩
      | some phone =>
        if phone = "" then ⟨st, cache, false, false, Decision.skipNoPhone⟩
        else
          if suppressedB st contact_id phone now then
            ⟨bumpCheck st contact_id now, cache, false, false,
              Decision.skipSuppressed⟩
          else
            let r := send_to_numverify env api now cache phone
            match r.result with
            | Except.error e =>
              ⟨st, r.cache, r.apiCalled, false, Decision.skipError e⟩
            | Except.ok phone_info =>
              let country := deriveCountry phone_info
              let location_value := deriveLocation phone_info
              ⟨insertContact st contact_id
                  ⟨(phone, country, location_value), now, now⟩,
                r.cache, r.apiCalled,
                (update_contact env crm contact_id country location_value).1,
                Decision.write country location_value⟩

/-- Tells whether the numverify call raised (HTTP failure or unreachable). -/
def apiFails : ApiResponse → Bool
  | ApiResponse.ok _ => false
  | ApiResponse.httpFailure _ => true
  | ApiResponse.unreachable _ => true

/-- Message of the exception raised by `send_to_numverify` for a failing
numverify call (line 56, resp. the uncaught `requests.get` exception).  The
`ok` case is unused. -/
def apiErrorMsg : ApiResponse → String
  | ApiResponse.ok _ => ""
  | ApiResponse.httpFailure t => "Ошибка numVerify: " ++ t
  | ApiResponse.unreachable t => t

/-- Fixture: a fully configured environment. -/
def envFull : Env := ⟨some "key", some "dom", some "tok"⟩

/-- Fixture: an environment with `ACCESS_TOKEN` unset. -/
def envNoTok : Env := ⟨some "key", some "dom", none⟩

/-- Fixture: a valid numverify response for a Russian number. -/
def dataRus : PhoneData := ⟨true, some "Russia", some "Moscow"⟩

/-- Fixture: a `last_updates` dict with one contact updated at `t0 = 1000`. -/
def stX : LastUpdates := [(7, ⟨("123", "Russia", "Moscow"), 1000, 1000⟩)]

/-- Fixture: a `cached_phones` dict with one entry resolved at `t = 0`. -/
def cacheX : PhoneCache := [("123", dataRus, 0)]

/-- Invariant of one `last_updates` dict: every entry has
`last_update ≤ last_check`. -/
def stateInvB (st : LastUpdates) : Bool :=
  st.all fun e => decide (e.2.last_update ≤ e.2.last_check)

/-- Clock monotonicity: all stored update stamps are in the past. -/
def timeBoundB (st : LastUpdates) (now : Nat) : Bool :=
  st.all fun e => decide (e.2.last_update ≤ now)

lemma suppressedB_eq_true (st : LastUpdates) (cid : Nat) (phone : String)
    (now : Nat) (prev : ContactState) (hf : findContact st cid = some prev)
    (h1 : prev.data.1 = phone) (h2 : now - prev.last_update < 600) :
    suppressedB st cid phone now = true := by
  unfold suppressedB
  rw [hf]
  simp [h1, h2]

lemma process_contact_suppressed_eq (env : Env) (api : ApiResponse)
    (crm : CrmResult) (now : Nat) (st : LastUpdates) (cache : PhoneCache)
    (cid : Nat) (phone : String) (hcid : cid ≠ 0) (hph : phone ≠ "")
    (hsup : suppressedB st cid phone now = true) :
    process_contact env api crm now st cache ⟨some cid, some phone⟩ =
      ⟨bumpCheck st cid now, cache, false, false, Decision.skipSuppressed⟩ := by
  unfold process_contact
  simp [hcid, hph, hsup]

lemma process_contact_error_eq (env : Env) (api : ApiResponse)
    (crm : CrmResult) (now : Nat) (st : LastUpdates) (cache : PhoneCache)
    (cid : Nat) (phone : String) (e : String) (hcid : cid ≠ 0)
    (hph : phone ≠ "") (hsup : suppressedB st cid phone now = false)
    (hres : (send_to_numverify env api now cache phone).result =
      Except.error e) :
    process_contact env api crm now st cache ⟨some cid, some phone⟩ =
      ⟨st, (send_to_numverify env api now cache phone).cache,
        (send_to_numverify env api now cache phone).apiCalled, false,
        Decision.skipError e⟩ := by
  unfold process_contact
  simp only [hcid, hph, hsup, if_neg, if_false, Bool.false_eq_true]
  simp [hres]

lemma process_contact_write_eq (env : Env) (api : ApiResponse)
    (crm : CrmResult) (now : Nat) (st : LastUpdates) (cache : PhoneCache)
    (cid : Nat) (phone : String) (d : PhoneData) (hcid : cid ≠ 0)
    (hph : phone ≠ "") (hsup : suppressedB st cid phone now = false)
    (hres : (send_to_numverify env api now cache phone).result =
      Except.ok d) :
    process_contact env api crm now st cache ⟨some cid, some phone⟩ =
      ⟨insertContact st cid ⟨(phone, deriveCountry d, deriveLocation d),
          now, now⟩,
        (send_to_numverify env api now cache phone).cache,
        (send_to_numverify env api now cache phone).apiCalled,
        (update_contact env crm cid (deriveCountry d) (deriveLocation d)).1,
        Decision.write (deriveCountry d) (deriveLocation d)⟩ := by
  unfold process_contact
  simp only [hcid, hph, hsup, if_neg, if_false, Bool.false_eq_true]
  simp [hres]

lemma findContact_insertContact_self (st : LastUpdates) (cid : Nat)
    (c : ContactState) : findContact (insertContact st cid c) cid = some c := by
  induction st with
  | nil => simp [insertContact, findContact]
  | cons hd tl ih =>
    obtain ⟨k, w⟩ := hd
    by_cases hk : k = cid
    · simp [insertContact, findContact, hk]
    · simp [insertContact, findContact, hk, ih]

lemma cacheHit_none_mono (cache : PhoneCache) (key : String)
    (now now2 : Nat) (h : cacheHit cache key now = none) (hle : now ≤ now2) :
    cacheHit cache key now2 = none := by
  unfold cacheHit at h ⊢
  cases hf : findPhone cache key with
  | none => rfl
  | some v =>
    obtain ⟨d, ts⟩ := v
    simp only [hf] at h ⊢
    simp only [ite_eq_right_iff, reduceCtorEq, imp_false] at h ⊢
    omega

lemma send_apiCalled_of_miss (env : Env) (api : ApiResponse) (now : Nat)
    (cache : PhoneCache) (phone : String)
    (hmiss : cacheHit cache (normalizePhone phone) now = none)
    (hk : truthy env.numverify_key = true) :
    (send_to_numverify env api now cache phone).apiCalled = true := by
  unfold send_to_numverify
  simp only [hmiss, hk, if_true]
  cases api with
  | ok d => by_cases hv : d.valid <;> simp [hv]
  | httpFailure t => rfl
  | unreachable t => rfl

lemma stateInvB_bumpCheck (st : LastUpdates) (cid now : Nat)
    (hinv : stateInvB st = true) (hb : timeBoundB st now = true) :
    stateInvB (bumpCheck st cid now) = true := by
  induction st with
  | nil => rfl
  | cons hd tl ih =>
    obtain ⟨k, c⟩ := hd
    simp only [stateInvB, timeBoundB, List.all_cons, Bool.and_eq_true] at hinv hb
    by_cases hk : k = cid
    · simp only [bumpCheck, if_pos hk, stateInvB, List.all_cons,
        Bool.and_eq_true]
      exact ⟨by simpa using hb.1, hinv.2⟩
    · simp only [bumpCheck, if_neg hk, stateInvB, List.all_cons,
        Bool.and_eq_true]
      exact ⟨hinv.1, ih hinv.2 hb.2⟩

lemma stateInvB_insertContact (st : LastUpdates) (cid : Nat)
    (c : ContactState) (hinv : stateInvB st = true)
    (hc : c.last_update ≤ c.last_check) :
    stateInvB (insertContact st cid c) = true := by
  induction st with
  | nil => simp [insertContact, stateInvB, hc]
  | cons hd tl ih =>
    obtain ⟨k, w⟩ := hd
    simp only [stateInvB, List.all_cons, Bool.and_eq_true] at hinv
    by_cases hk : k = cid
    · simp only [insertContact, if_pos hk, stateInvB, List.all_cons,
        Bool.and_eq_true]
      exact ⟨by simpa using hc, hinv.2⟩
    · simp only [insertContact, if_neg hk, stateInvB, List.all_cons,
        Bool.and_eq_true]
      exact ⟨hinv.1, ih hinv.2⟩

/-- Claim C3: when a prior `last_updates` entry exists whose stored raw phone
string equals the observed phone and whose `last_update` is less than 600
seconds old, `process_contact` only bumps `last_check` to `now` and skips,
with no numverify call and no CRM write; and once the suppression window has
elapsed for the stored entry, the same observation yields a fresh Write
decision. -/
theorem claim_C3 (env : Env) (api : ApiResponse) (crm : CrmResult) (now : Nat)
    (st : LastUpdates) (cache : PhoneCache) (cid : Nat) (phone : String)
    (prev : ContactState) (hcid : cid ≠ 0) (hph : phone ≠ "")
    (hf : findContact st cid = some prev) (h1 : prev.data.1 = phone)
    (h2 : now - prev.last_update < 600) :
    process_contact env api crm now st cache ⟨some cid, some phone⟩ =
      ⟨bumpCheck st cid now, cache, false, false, Decision.skipSuppressed⟩ ∧
    (∀ (now2 : Nat) (api2 : ApiResponse) (crm2 : CrmResult)
      (st2 : LastUpdates) (prev2 : ContactState) (d : PhoneData),
      findContact st2 cid = some prev2 →
      600 ≤ now2 - prev2.last_update →
      (send_to_numverify env api2 now2 cache phone).result = Except.ok d →
      (process_contact env api2 crm2 now2 st2 cache
        ⟨some cid, some phone⟩).decision =
        Decision.write (deriveCountry d) (deriveLocation d)) := by
  constructor
  · exact process_contact_suppressed_eq env api crm now st cache cid phone
      hcid hph (suppressedB_eq_true st cid phone now prev hf h1 h2)
  · intro now2 api2 crm2 st2 prev2 d hf2 hge hres
    have hsup2 : suppressedB st2 cid phone now2 = false := by
      unfold suppressedB
      rw [hf2]
      simp
      omega
    rw [process_contact_write_eq env api2 crm2 now2 st2 cache cid phone d
      hcid hph hsup2 hres]

/-- Witness for C3: contact 7 was written with phone "123" at `t0 = 1000`;
re-observing "123" at `t0+599` skips and only bumps `last_check`, and
re-observing at `t0+601` (on the bumped state) gives a fresh Write. -/
theorem claim_C3_witness :
    process_contact envFull (ApiResponse.ok dataRus) CrmResult.ok 1599 stX []
      ⟨some 7, some "123"⟩ =
      ⟨bumpCheck stX 7 1599, [], false, false, Decision.skipSuppressed⟩ ∧
    (process_contact envFull (ApiResponse.ok dataRus) CrmResult.ok 1601
      (bumpCheck stX 7 1599) [] ⟨some 7, some "123"⟩).decision =
      Decision.write "Russia" "Moscow" := by
  have h := claim_C3 envFull (ApiResponse.ok dataRus) CrmResult.ok 1599 stX []
    7 "123" ⟨("123", "Russia", "Moscow"), 1000, 1000⟩ (by decide) (by decide)
    (by decide) (by decide) (by decide)
  exact ⟨h.1, h.2 1601 (ApiResponse.ok dataRus) CrmResult.ok
    (bumpCheck stX 7 1599) ⟨("123", "Russia", "Moscow"), 1000, 1599⟩ dataRus
    (by decide) (by decide) (by decide)⟩

/-- Claim C4: with a cache entry for the normalized phone, `send_to_numverify`
returns the stored result verbatim with no external call exactly while the
entry is less than 3600 seconds old; once it is 3600 seconds old or older
(and the access key is set) the external collaborator is invoked again. -/
theorem claim_C4 (env : Env) (api : ApiResponse) (now : Nat)
    (cache : PhoneCache) (phone : String) (data : PhoneData) (ts : Nat)
    (hf : findPhone cache (normalizePhone phone) = some (data, ts)) :
    (now - ts < 3600 →
      send_to_numverify env api now cache phone =
        ⟨Except.ok data, cache, false⟩) ∧
    (3600 ≤ now - ts → truthy env.numverify_key = true →
      (send_to_numverify env api now cache phone).apiCalled = true) := by
  constructor
  · intro hlt
    have hhit : cacheHit cache (normalizePhone phone) now = some data := by
      unfold cacheHit
      rw [hf]
      simp [hlt]
    unfold send_to_numverify
    simp only [hhit]
  · intro hge hk
    refine send_apiCalled_of_miss env api now cache phone ?_ hk
    unfold cacheHit
    rw [hf]
    simp
    omega

/-- Witness for C4: an entry cached at `t = 0` is returned verbatim without
an external call at `t = 3599` and triggers a re-fetch at `t = 3601`. -/
theorem claim_C4_witness :
    send_to_numverify envFull (ApiResponse.ok dataRus) 3599 cacheX "123" =
      ⟨Except.ok dataRus, cacheX, false⟩ ∧
    (send_to_numverify envFull (ApiResponse.ok dataRus) 3601 cacheX
      "123").apiCalled = true :=
  ⟨(claim_C4 envFull (ApiResponse.ok dataRus) 3599 cacheX "123" dataRus 0
      (by decide)).1 (by decide),
   (claim_C4 envFull (ApiResponse.ok dataRus) 3601 cacheX "123" dataRus 0
      (by decide)).2 (by decide) (by decide)⟩

/-- Claim C5: resolving a number the collaborator reports invalid returns the
empty result and leaves the cache unchanged, so any later resolve of the
same phone (the cache being unchanged) invokes the collaborator again. -/
theorem claim_C5 (env : Env) (now : Nat) (cache : PhoneCache) (phone : String)
    (d : PhoneData) (hmiss : cacheHit cache (normalizePhone phone) now = none)
    (hk : truthy env.numverify_key = true) (hd : d.valid = false) :
    send_to_numverify env (ApiResponse.ok d) now cache phone =
      ⟨Except.ok emptyData, cache, true⟩ ∧
    (∀ (now2 : Nat) (api2 : ApiResponse), now ≤ now2 →
      (send_to_numverify env api2 now2 cache phone).apiCalled = true) := by
  constructor
  · unfold send_to_numverify
    simp only [hmiss, hk, if_true, hd]
    simp [hd]
  · intro now2 api2 hle
    exact send_apiCalled_of_miss env api2 now2 cache phone
      (cacheHit_none_mono cache (normalizePhone phone) now now2 hmiss hle) hk

/-- Witness for C5: two consecutive resolves of the invalid number "555" both
invoke the collaborator, and the first leaves the cache empty. -/
theorem claim_C5_witness :
    send_to_numverify envFull (ApiResponse.ok ⟨false, some "Russia", none⟩) 0
      [] "555" = ⟨Except.ok emptyData, [], true⟩ ∧
    (send_to_numverify envFull (ApiResponse.ok ⟨false, some "Russia", none⟩) 5
      [] "555").apiCalled = true := by
  have h := claim_C5 envFull 0 [] "555" ⟨false, some "Russia", none⟩
    (by decide) (by decide) (by decide)
  exact ⟨h.1, h.2 5 (ApiResponse.ok ⟨false, some "Russia", none⟩) (by decide)⟩

/-- Claim C9: a contact whose observed phone is absent or empty is skipped
with no numverify call, no CRM request and neither dict modified (an absent
contact id skips the same way, before the phone is even read). -/
theorem claim_C9 (env : Env) (api : ApiResponse) (crm : CrmResult) (now : Nat)
    (st : LastUpdates) (cache : PhoneCache) (ct : Contact)
    (h : ct.phone = none ∨ ct.phone = some "") :
    (process_contact env api crm now st cache ct).last_updates = st ∧
    (process_contact env api crm now st cache ct).cache = cache ∧
    (process_contact env api crm now st cache ct).apiCalled = false ∧
    (process_contact env api crm now st cache ct).crmAttempted = false ∧
    ((process_contact env api crm now st cache ct).decision =
        Decision.skipNoPhone ∨
      (process_contact env api crm now st cache ct).decision =
        Decision.skipNoId) := by
  obtain ⟨id0, ph0⟩ := ct
  simp only [Contact.mk.injEq] at h
  unfold process_contact
  cases id0 with
  | none => simp
  | some cid =>
    by_cases h0 : cid = 0
    · simp [h0]
    · rcases h with h | h <;> subst h <;> simp [h0]

/-- Witness for C9: a contact with an empty phone string is skipped with no
side effect on either dict. -/
theorem claim_C9_witness :
    (process_contact envFull (ApiResponse.ok dataRus) CrmResult.ok 5 stX
      cacheX ⟨some 7, some ""⟩).last_updates = stX ∧
    (process_contact envFull (ApiResponse.ok dataRus) CrmResult.ok 5 stX
      cacheX ⟨some 7, some ""⟩).cache = cacheX ∧
    (process_contact envFull (ApiResponse.ok dataRus) CrmResult.ok 5 stX
      cacheX ⟨some 7, some ""⟩).apiCalled = false ∧
    (process_contact envFull (ApiResponse.ok dataRus) CrmResult.ok 5 stX
      cacheX ⟨some 7, some ""⟩).crmAttempted = false ∧
    ((process_contact envFull (ApiResponse.ok dataRus) CrmResult.ok 5 stX
        cacheX ⟨some 7, some ""⟩).decision = Decision.skipNoPhone ∨
      (process_contact envFull (ApiResponse.ok dataRus) CrmResult.ok 5 stX
        cacheX ⟨some 7, some ""⟩).decision = Decision.skipNoId) :=
  claim_C9 envFull (ApiResponse.ok dataRus) CrmResult.ok 5 stX cacheX
    ⟨some 7, some ""⟩ (Or.inr rfl)

/-- Claim C6: when the numverify collaborator is unreachable or returns a
failure status (and no fresh cache entry exists for the number),
`send_to_numverify` raises without mutating the cache, and `process_contact`
catches the failure and ends processing of the contact with neither dict
mutated and no CRM request. -/
theorem claim_C6 (env : Env) (api : ApiResponse) (crm : CrmResult) (now : Nat)
    (st : LastUpdates) (cache : PhoneCache) (cid : Nat) (phone : String)
    (hcid : cid ≠ 0) (hph : phone ≠ "")
    (hsup : suppressedB st cid phone now = false)
    (hmiss : cacheHit cache (normalizePhone phone) now = none)
    (hk : truthy env.numverify_key = true) (hfail : apiFails api = true) :
    send_to_numverify env api now cache phone =
      ⟨Except.error (apiErrorMsg api), cache, true⟩ ∧
    process_contact env api crm now st cache ⟨some cid, some phone⟩ =
      ⟨st, cache, true, false, Decision.skipError (apiErrorMsg api)⟩ := by
  have hsend : send_to_numverify env api now cache phone =
      ⟨Except.error (apiErrorMsg api), cache, true⟩ := by
    unfold send_to_numverify
    simp only [hmiss, hk, if_true]
    cases api with
    | ok d => simp [apiFails] at hfail
    | httpFailure t => rfl
    | unreachable t => rfl
  refine ⟨hsend, ?_⟩
  have h := process_contact_error_eq env api crm now st cache cid phone
    (apiErrorMsg api) hcid hph hsup (by rw [hsend])
  rw [h, hsend]

/-- Witness for C6: a 503 from numverify for a never-resolved number makes
`process_contact` log and skip, leaving both dicts as they were. -/
theorem claim_C6_witness :
    send_to_numverify envFull (ApiResponse.httpFailure "503") 50 [] "987" =
      ⟨Except.error "Ошибка numVerify: 503", [], true⟩ ∧
    process_contact envFull (ApiResponse.httpFailure "503") CrmResult.ok 50 []
      [] ⟨some 9, some "987"⟩ =
      ⟨[], [], true, false, Decision.skipError "Ошибка numVerify: 503"⟩ :=
  claim_C6 envFull (ApiResponse.httpFailure "503") CrmResult.ok 50 [] [] 9
    "987" (by decide) (by decide) (by decide) (by decide) (by decide)
    (by decide)

/-- Claim C7: every `process_contact` path preserves the invariant
`last_update ≤ last_check` of every `last_updates` entry, from any state
satisfying it, provided the clock has not gone backwards past a stored
update stamp (all stored `last_update` values are at most `now`, which holds
in every execution since the stamps are earlier clock readings). -/
theorem claim_C7 (env : Env) (api : ApiResponse) (crm : CrmResult) (now : Nat)
    (st : LastUpdates) (cache : PhoneCache) (ct : Contact)
    (hinv : stateInvB st = true) (hb : timeBoundB st now = true) :
    stateInvB (process_contact env api crm now st cache ct).last_updates =
      true := by
  obtain ⟨id0, ph0⟩ := ct
  unfold process_contact
  cases id0 with
  | none => simpa using hinv
  | some cid =>
    by_cases h0 : cid = 0
    · simpa [h0] using hinv
    · cases ph0 with
      | none => simpa [h0] using hinv
      | some phone =>
        by_cases he : phone = ""
        · simpa [h0, he] using hinv
        · by_cases hs : suppressedB st cid phone now = true
          · simpa [h0, he, hs] using stateInvB_bumpCheck st cid now hinv hb
          · rw [Bool.not_eq_true] at hs
            simp only [h0, he, hs, if_neg, if_false, Bool.false_eq_true,
              reduceIte]
            split
            · simpa using hinv
            · simpa using stateInvB_insertContact st cid _ hinv (le_refl now)

/-- Witness for C7: a Write at `t = 1500` over a state satisfying the
invariant yields a state still satisfying it. -/
theorem claim_C7_witness :
    stateInvB stX = true ∧ timeBoundB stX 1500 = true ∧
    stateInvB (process_contact envFull (ApiResponse.ok dataRus) CrmResult.ok
      1500 stX [] ⟨some 7, some "456"⟩).last_updates = true :=
  ⟨by decide, by decide,
    claim_C7 envFull (ApiResponse.ok dataRus) CrmResult.ok 1500 stX []
      ⟨some 7, some "456"⟩ (by decide) (by decide)⟩

/-- Claim C10: when `AMO_DOMAIN` or `ACCESS_TOKEN` is unset or empty (or the
contact id is falsy), `update_contact` performs no external request and
returns silently with nothing printed; and with such a configuration
`process_contact` still records the contact in `last_updates` with
`last_update = last_check = now` after a Write decision, advancing the
suppression window as if the write had succeeded. -/
theorem claim_C10 (env : Env) (api : ApiResponse) (crm : CrmResult)
    (now : Nat) (st : LastUpdates) (cache : PhoneCache) (cid : Nat)
    (phone country location_value : String) (d : PhoneData) :
    ((cid = 0 ∨ truthy env.amo_domain = false ∨
        truthy env.access_token = false) →
      update_contact env crm cid country location_value = (false, [])) ∧
    ((truthy env.amo_domain = false ∨ truthy env.access_token = false) →
      cid ≠ 0 → phone ≠ "" → suppressedB st cid phone now = false →
      (send_to_numverify env api now cache phone).result = Except.ok d →
      (process_contact env api crm now st cache
          ⟨some cid, some phone⟩).crmAttempted = false ∧
      findContact (process_contact env api crm now st cache
          ⟨some cid, some phone⟩).last_updates cid =
        some ⟨(phone, deriveCountry d, deriveLocation d), now, now⟩ ∧
      (process_contact env api crm now st cache
          ⟨some cid, some phone⟩).decision =
        Decision.write (deriveCountry d) (deriveLocation d)) := by
  constructor
  · intro hcfg
    unfold update_contact
    rw [if_pos hcfg]
  · intro hcfg hcid hph hsup hres
    rw [process_contact_write_eq env api crm now st cache cid phone d hcid
      hph hsup hres]
    refine ⟨?_, findContact_insertContact_self st cid _, rfl⟩
    unfold update_contact
    rw [if_pos (Or.inr hcfg)]

/-- Witness for C10: with `ACCESS_TOKEN` unset, `update_contact` does nothing
silently, yet `process_contact` still records contact 3 as updated at
`now = 80`. -/
theorem claim_C10_witness :
    update_contact envNoTok CrmResult.ok 3 "Russia" "Moscow" = (false, []) ∧
    (process_contact envNoTok (ApiResponse.ok dataRus) CrmResult.ok 80 [] []
      ⟨some 3, some "555"⟩).crmAttempted = false ∧
    findContact (process_contact envNoTok (ApiResponse.ok dataRus)
      CrmResult.ok 80 [] [] ⟨some 3, some "555"⟩).last_updates 3 =
      some ⟨("555", "Russia", "Moscow"), 80, 80⟩ ∧
    (process_contact envNoTok (ApiResponse.ok dataRus) CrmResult.ok 80 [] []
      ⟨some 3, some "555"⟩).decision = Decision.write "Russia" "Moscow" := by
  have h := claim_C10 envNoTok (ApiResponse.ok dataRus) CrmResult.ok 80 [] []
    3 "555" "Russia" "Moscow" dataRus
  have h2 := h.2 (Or.inr (by decide)) (by decide) (by decide) (by decide)
    (by decide)
  exact ⟨h.1 (Or.inr (Or.inr (by decide))), h2.1, h2.2.1, h2.2.2⟩

/-- Counterexample to C1: the decision is Write and the CRM PATCH fails with
an HTTP error, yet `last_updates` IS modified (the new entry is recorded at
`now = 1000`), and the identical observation 100 seconds later is suppressed
instead of producing a retry Write. -/
theorem claim_C1_counterexample :
    (process_contact envFull (ApiResponse.ok dataRus)
      (CrmResult.httpFailure "server error") 1000 [] []
      ⟨some 42, some "123"⟩).decision = Decision.write "Russia" "Moscow" ∧
    (process_contact envFull (ApiResponse.ok dataRus)
      (CrmResult.httpFailure "server error") 1000 [] []
      ⟨some 42, some "123"⟩).crmAttempted = true ∧
    (process_contact envFull (ApiResponse.ok dataRus)
      (CrmResult.httpFailure "server error") 1000 [] []
      ⟨some 42, some "123"⟩).last_updates =
      [(42, ⟨("123", "Russia", "Moscow"), 1000, 1000⟩)] ∧
    (process_contact envFull (ApiResponse.ok dataRus)
      (CrmResult.httpFailure "server error") 1100
      (process_contact envFull (ApiResponse.ok dataRus)
        (CrmResult.httpFailure "server error") 1000 [] []
        ⟨some 42, some "123"⟩).last_updates
      (process_contact envFull (ApiResponse.ok dataRus)
        (CrmResult.httpFailure "server error") 1000 [] []
        ⟨some 42, some "123"⟩).cache
      ⟨some 42, some "123"⟩).decision = Decision.skipSuppressed := by
  decide

/-- Claim C1 as amended: whenever the decision procedure signals Write, the
`last_updates` entry is overwritten with the observed phone and the derived
data at `last_update = last_check = now` regardless of the CRM write outcome
(`update_contact` swallows every failure), so a subsequent identical
observation within the suppression window is suppressed — under any CRM
outcome — rather than retried. -/
theorem claim_C1_amended (env : Env) (api : ApiResponse) (crm : CrmResult)
    (now : Nat) (st : LastUpdates) (cache : PhoneCache) (cid : Nat)
    (phone : String) (d : PhoneData) (hcid : cid ≠ 0) (hph : phone ≠ "")
    (hsup : suppressedB st cid phone now = false)
    (hres : (send_to_numverify env api now cache phone).result =
      Except.ok d) :
    (process_contact env api crm now st cache
        ⟨some cid, some phone⟩).decision =
      Decision.write (deriveCountry d) (deriveLocation d) ∧
    findContact (process_contact env api crm now st cache
        ⟨some cid, some phone⟩).last_updates cid =
      some ⟨(phone, deriveCountry d, deriveLocation d), now, now⟩ ∧
    (∀ (crm2 : CrmResult) (api2 : ApiResponse) (now2 : Nat),
      now2 - now < 600 →
      (process_contact env api2 crm2 now2
        (process_contact env api crm now st cache
          ⟨some cid, some phone⟩).last_updates
        (process_contact env api crm now st cache
          ⟨some cid, some phone⟩).cache
        ⟨some cid, some phone⟩).decision = Decision.skipSuppressed) := by
  have heq := process_contact_write_eq env api crm now st cache cid phone d
    hcid hph hsup hres
  rw [heq]
  refine ⟨rfl, findContact_insertContact_self st cid _, ?_⟩
  intro crm2 api2 now2 hlt
  have hf2 := findContact_insertContact_self st cid
    ⟨(phone, deriveCountry d, deriveLocation d), now, now⟩
  have hs2 := suppressedB_eq_true (insertContact st cid
      ⟨(phone, deriveCountry d, deriveLocation d), now, now⟩)
    cid phone now2 ⟨(phone, deriveCountry d, deriveLocation d), now, now⟩
    hf2 rfl hlt
  rw [process_contact_suppressed_eq env api2 crm2 now2 _ _ cid phone hcid hph
    hs2]

/-- Witness for amended C1: a Write whose CRM PATCH fails still records
contact 42 at `now = 1000`, and the identical observation at 1100 is
suppressed whatever the CRM would answer then. -/
theorem claim_C1_witness :
    (process_contact envFull (ApiResponse.ok dataRus)
      (CrmResult.httpFailure "server error") 1000 [] []
      ⟨some 42, some "123"⟩).decision = Decision.write "Russia" "Moscow" ∧
    findContact (process_contact envFull (ApiResponse.ok dataRus)
      (CrmResult.httpFailure "server error") 1000 [] []
      ⟨some 42, some "123"⟩).last_updates 42 =
      some ⟨("123", "Russia", "Moscow"), 1000, 1000⟩ ∧
    (process_contact envFull (ApiResponse.ok dataRus) CrmResult.ok 1100
      (process_contact envFull (ApiResponse.ok dataRus)
        (CrmResult.httpFailure "server error") 1000 [] []
        ⟨some 42, some "123"⟩).last_updates
      (process_contact envFull (ApiResponse.ok dataRus)
        (CrmResult.httpFailure "server error") 1000 [] []
        ⟨some 42, some "123"⟩).cache
      ⟨some 42, some "123"⟩).decision = Decision.skipSuppressed := by
  have h := claim_C1_amended envFull (ApiResponse.ok dataRus)
    (CrmResult.httpFailure "server error") 1000 [] [] 42 "123" dataRus
    (by decide) (by decide) (by decide) (by decide)
  exact ⟨h.1, h.2.1, h.2.2 CrmResult.ok (ApiResponse.ok dataRus) 1100
    (by decide)⟩

/-- Counterexample to C2: stripping "89123456789" leaves 11 digits starting
with "8", so the leading digit is NOT dropped; it normalizes to an 11-digit
key different from the key of "+7 (912) 345-67-89", and after resolving the
latter, resolving the former still invokes the collaborator (misses the
cache entry just written). -/
theorem claim_C2_counterexample :
    normalizePhone "+7 (912) 345-67-89" = "9123456789" ∧
    normalizePhone "89123456789" = "89123456789" ∧
    normalizePhone "+7 (912) 345-67-89" ≠ normalizePhone "89123456789" ∧
    (send_to_numverify envFull (ApiResponse.ok dataRus) 10
      (send_to_numverify envFull (ApiResponse.ok dataRus) 0 []
        "+7 (912) 345-67-89").cache
      "89123456789").apiCalled = true := by
  decide

/-- Claim C2 as amended: "+7 (912) 345-67-89" and "79123456789" normalize to
the same 10-digit key "9123456789" and share one validation cache entry
(after resolving the first, resolving the second within the TTL returns the
cached data with no external call — even when numverify is down); the
spec's example "89123456789" keeps its leading "8" and normalizes to the
distinct 11-digit key "89123456789". -/
theorem claim_C2_amended :
    normalizePhone "+7 (912) 345-67-89" = "9123456789" ∧
    normalizePhone "79123456789" = "9123456789" ∧
    normalizePhone "89123456789" = "89123456789" ∧
    send_to_numverify envFull (ApiResponse.httpFailure "down") 10
      (send_to_numverify envFull (ApiResponse.ok dataRus) 0 []
        "+7 (912) 345-67-89").cache
      "79123456789" =
      ⟨Except.ok dataRus,
        (send_to_numverify envFull (ApiResponse.ok dataRus) 0 []
          "+7 (912) 345-67-89").cache, false⟩ := by
  decide

/-- Counterexample to C8: for an invalid number the decision is Write with
the source's Russian placeholder strings, not with "unknown" and
"region unknown" as the claim states. -/
theorem claim_C8_counterexample :
    (process_contact envFull (ApiResponse.ok ⟨false, some "Russia",
      some "Moscow"⟩) CrmResult.ok 0 [] [] ⟨some 1, some "123"⟩).decision =
      Decision.write "Не определено" "Регион не определён" ∧
    (process_contact envFull (ApiResponse.ok ⟨false, some "Russia",
      some "Moscow"⟩) CrmResult.ok 0 [] [] ⟨some 1, some "123"⟩).decision ≠
      Decision.write "unknown" "region unknown" := by
  decide

/-- Claim C8 as amended: when the validation result lacks a country name and
its location is absent or trims to the empty string (as the empty result of
the invalid-number case does), the decision procedure proceeds to a Write
whose country is the placeholder "Не определено" and whose region is the
placeholder "Регион не определён". -/
theorem claim_C8_amended (env : Env) (api : ApiResponse) (crm : CrmResult)
    (now : Nat) (st : LastUpdates) (cache : PhoneCache) (cid : Nat)
    (phone : String) (d : PhoneData) (hcid : cid ≠ 0) (hph : phone ≠ "")
    (hsup : suppressedB st cid phone now = false)
    (hres : (send_to_numverify env api now cache phone).result =
      Except.ok d)
    (hc : d.country_name = none) (hl : pyStrip (d.location.getD "") = "") :
    (process_contact env api crm now st cache
        ⟨some cid, some phone⟩).decision =
      Decision.write "Не определено" "Регион не определён" := by
  rw [process_contact_write_eq env api crm now st cache cid phone d hcid hph
    hsup hres]
  simp [deriveCountry, deriveLocation, hc, hl]

/-- Witness for amended C8: an invalid number resolves to the empty result
and the decision is a Write carrying both Russian placeholders. -/
theorem claim_C8_witness :
    (process_contact envFull (ApiResponse.ok ⟨false, some "Russia",
      some "Moscow"⟩) CrmResult.ok 0 [] [] ⟨some 1, some "123"⟩).decision =
      Decision.write "Не определено" "Регион не определён" :=
  claim_C8_amended envFull (ApiResponse.ok ⟨false, some "Russia",
    some "Moscow"⟩) CrmResult.ok 0 [] [] 1 "123" emptyData (by decide)
    (by decide) (by decide) (by decide) (by decide) (by decide)

end TimeZoneForAmo
